import Mathlib

/-!
Verification of the SX126x ping-pong control loop
(`examples/stm32f103-ping-pong.rs` of `sx126x-rs`).

The development shallowly embeds the example's main control loop: the
interrupt latch (`DIO1_RISEN`), the chunked rx-buffer drain loop, the
per-status dispatch, and the halt-on-first-`DeviceError` behaviour of the
`.unwrap()` calls.  The lower `sx126x` driver is not part of the sources;
its calls are modelled as an oracle (`Device`) supplying each call's
result, and the few data types the loop consumes (`CommandStatus`,
`RxBufferStatus`, timeouts) are modelled from the spec where noted.

Machine integers: `payload_len`, `start_offset` and the loop index `i` are
`u8` in the source.  The only operation that can leave `u8` range is the
read offset `i + start_offset`; it is embedded as `(i + s) % 256`,
the wrapping (release-mode) semantics of the addition.
-/

namespace SX126x

/-- A failure returned by a radio-driver call (SPI error, driver-internal
busy timeout, ...).  The loop never inspects it, so an opaque code
suffices. -/
structure DeviceError where
  code : ℕ
deriving DecidableEq, Repr

/-- Modelled from the spec: the command-status classification carried by a
`get_status` result.  The engine special-cases `DataAvailable`,
`CommandTxDone` and `CommandTimeout`; the remaining variants stand for
codes it does not special-case. -/
inductive CommandStatus
  | DataAvailable
  | CommandTxDone
  | CommandTimeout
  | CommandProcessingError
  | FailureToExecute
deriving DecidableEq, Repr

/-- Modelled from the spec: the rx-buffer status, a payload byte count and
a start offset in device memory (both `u8` values on the device). -/
structure RxBufferStatus where
  payload_length_rx : ℕ
  rx_start_buffer_pointer : ℕ
deriving DecidableEq, Repr

/-- Modelled from the spec: the CRC mode passed to `write_bytes`. -/
inductive LoRaCrcType
  | CrcOn
  | CrcOff
deriving DecidableEq, Repr

/-- The interrupt line handed to `write_bytes`.  The example has a single
line, DIO1, wrapped in `Dio1PinRefMut`. -/
inductive NotifyLine
  | dio1
deriving DecidableEq, Repr

/-- The fixed 32-byte chunk buffer size, `chunk_result.len()`. -/
def chunk_size : ℕ := 32

/-- The receive timeout `RxTxTimeout::from_ms(3000)`, in milliseconds.
Modelled from the
spec: a timeout is a duration with `0` as the distinguished "disabled"
sentinel. -/
def rx_timeout : ℕ := 3000

/-- The transmit timeout `0.into()`: disabled (`0` sentinel). -/
def tx_timeout : ℕ := 0

/-- The configured CRC mode, `LoRaCrcType::CrcOn`. -/
def crc_type : LoRaCrcType := .CrcOn

/-- The fixed reply payload `b"Hello from sx126x-rs!"`. -/
def reply_message : List ℕ :=
  [72, 101, 108, 108, 111, 32, 102, 114, 111, 109, 32,
   115, 120, 49, 50, 54, 120, 45, 114, 115, 33]

/-!
## The drain loop's (offset, length) pairs

`for i in (0..payload_len).step_by(chunk_result.len())` with
`end = (payload_len - i).min(chunk_result.len() as u8)` and a read at
offset `i + start_offset` (wrapping `u8` addition).
-/

/-- The indices yielded by `(0..L).step_by(c)`: every `c`-th value of
`0, 1, ..., L-1`, i.e. the multiples of `c` below `L`. -/
def stepBy (c L : ℕ) : List ℕ :=
  (List.range L).filter fun i => i % c == 0

/-- The (offset, length) pairs of the `read_buffer` calls the drain loop
issues, for start offset `s` and payload length `L`:
`end = (payload_len - i).min(chunk_result.len())` bytes at offset
`i + start_offset` (wrapping `u8` addition). -/
def drainPairs (s L : ℕ) : List (ℕ × ℕ) :=
  (stepBy chunk_size L).map fun i => ((i + s) % 256, min (L - i) chunk_size)

/-- Stated from the spec's words, for comparison with `drainPairs`: the
pairs `(start_offset + k*C, min(C, L - k*C))` for `k = 0, 1, ...` while
`k*C < L`, that is for `k < ⌈L/C⌉`. -/
def specPairs (s L : ℕ) : List (ℕ × ℕ) :=
  (List.range ((L + chunk_size - 1) / chunk_size)).map
    fun k => (s + k * chunk_size, min chunk_size (L - k * chunk_size))

/-- The iterator `(0..L).step_by(C)` yields `k * C` for `k < ⌈L/C⌉`. -/
theorem stepBy_chunk_eq (L : ℕ) :
    stepBy chunk_size L =
      (List.range ((L + chunk_size - 1) / chunk_size)).map fun k => k * chunk_size := by
  induction L with
  | zero => simp [stepBy, chunk_size]
  | succ L ih =>
    rw [stepBy, List.range_succ, List.filter_append, ← stepBy]
    rw [ih]
    by_cases hL : L % chunk_size = 0
    · have hn : (L + 1 + chunk_size - 1) / chunk_size
          = (L + chunk_size - 1) / chunk_size + 1 := by
        simp only [chunk_size] at *; omega
      have hL32 : ((L + chunk_size - 1) / chunk_size) * chunk_size = L := by
        simp only [chunk_size] at *; omega
      rw [hn, List.range_succ, List.map_append]
      simp [hL, hL32]
    · have hn : (L + 1 + chunk_size - 1) / chunk_size
          = (L + chunk_size - 1) / chunk_size := by
        simp only [chunk_size] at *; omega
      rw [hn]
      have hb : (L % chunk_size == 0) = false := by simp [hL]
      simp [List.filter, hb]

/-- The drain loop's pairs agree with the spec's pairs when the offset
addition cannot wrap (`s + L ≤ 256`). -/
theorem drainPairs_eq_specPairs (s L : ℕ) (h : s + L ≤ 256) :
    drainPairs s L = specPairs s L := by
  rw [drainPairs, stepBy_chunk_eq, List.map_map, specPairs]
  refine List.map_congr_left fun k hk => ?_
  rw [List.mem_range] at hk
  simp only [Function.comp_apply, Prod.mk.injEq, chunk_size] at *
  have hkL : k * 32 < L := by omega
  have hmod : (k * 32 + s) % 256 = k * 32 + s := Nat.mod_eq_of_lt (by omega)
  exact ⟨by omega, by omega⟩

/-- The first `n` spec pairs cover exactly `[s, s + min (n*C) L)`. -/
theorem specPairs_cover_aux (s L : ℕ) :
    ∀ n, (((List.range n).map fun k =>
          (s + k * chunk_size, min chunk_size (L - k * chunk_size))).flatMap
        fun p => List.range' p.1 p.2)
      = List.range' s (min (n * chunk_size) L) := by
  intro n
  induction n with
  | zero => simp
  | succ n ih =>
    rw [List.range_succ, List.map_append, List.flatMap_append, ih]
    simp only [List.map_cons, List.map_nil, List.flatMap_cons, List.flatMap_nil,
      List.append_nil]
    rcases le_or_lt L (n * chunk_size) with hsmall | hbig
    · have h1 : min (n * chunk_size) L = L := by omega
      have h2 : min ((n + 1) * chunk_size) L = L := by
        simp only [chunk_size] at *; omega
      have h3 : min chunk_size (L - n * chunk_size) = 0 := by omega
      rw [h1, h2, h3]
      simp
    · have h1 : min (n * chunk_size) L = n * chunk_size := by omega
      have h2 : min ((n + 1) * chunk_size) L
          = n * chunk_size + min chunk_size (L - n * chunk_size) := by
        simp only [chunk_size] at *; omega
      rw [h1, h2]
      have := List.range'_append s (n * chunk_size)
        (min chunk_size (L - n * chunk_size)) 1
      simp only [Nat.one_mul] at this
      rw [Nat.add_comm (n * chunk_size) (min chunk_size (L - n * chunk_size))]
      exact this

/-- The spec pairs cover exactly the half-open interval `[s, s + L)`. -/
theorem specPairs_cover (s L : ℕ) :
    ((specPairs s L).flatMap fun p => List.range' p.1 p.2) = List.range' s L := by
  rw [specPairs, specPairs_cover_aux]
  congr 1
  simp only [chunk_size]
  omega

/-- Every spec pair stays inside `[s, s + L)` and is nonempty. -/
theorem specPairs_bounds (s L : ℕ) :
    ∀ p ∈ specPairs s L, s ≤ p.1 ∧ p.1 + p.2 ≤ s + L ∧ 0 < p.2 := by
  intro p hp
  rw [specPairs] at hp
  rcases List.mem_map.mp hp with ⟨k, hk, rfl⟩
  rw [List.mem_range] at hk
  simp only [chunk_size] at *
  have hkL : k * 32 < L := by omega
  exact ⟨by omega, by omega, by omega⟩

/-- The last spec pair, in closed form. -/
theorem specPairs_getLast (s L : ℕ) (hL : 0 < L) :
    (specPairs s L).getLast? =
      some (s + ((L + chunk_size - 1) / chunk_size - 1) * chunk_size,
        min chunk_size (L - ((L + chunk_size - 1) / chunk_size - 1) * chunk_size)) := by
  rw [specPairs]
  have hn : (L + chunk_size - 1) / chunk_size
      = ((L + chunk_size - 1) / chunk_size - 1) + 1 := by
    simp only [chunk_size]; omega
  rw [hn, List.range_succ, List.map_append, List.map_cons, List.map_nil,
    List.getLast?_concat]
  simp

/-- Claim C1 (amended: under the precondition `start_offset + L ≤ 256`, so
that the 8-bit offset addition `i + start_offset` cannot leave `u8`
range): the drain loop issues `read_buffer` calls whose (offset, length)
pairs are exactly `(start_offset + k*C, min C (L - k*C))` for `k*C < L`
with `C = 32`; they cover the half-open interval
`[start_offset, start_offset + L)` with no gaps and no overlaps; no read
extends past `start_offset + L`; and the final chunk length equals
`L % C`, or `C` when `L % C = 0` and `L > 0`. -/
theorem c1_drain_chunks (s L : ℕ) (h : s + L ≤ 256) :
    drainPairs s L = specPairs s L
    ∧ ((drainPairs s L).flatMap fun p => List.range' p.1 p.2) = List.range' s L
    ∧ (∀ p ∈ drainPairs s L, s ≤ p.1 ∧ p.1 + p.2 ≤ s + L)
    ∧ (L % chunk_size ≠ 0 →
        (drainPairs s L).getLast?
          = some (s + L / chunk_size * chunk_size, L % chunk_size))
    ∧ (L % chunk_size = 0 → 0 < L →
        (drainPairs s L).getLast?
          = some (s + (L / chunk_size - 1) * chunk_size, chunk_size)) := by
  have he := drainPairs_eq_specPairs s L h
  refine ⟨he, ?_, ?_, ?_, ?_⟩
  · rw [he]
    exact specPairs_cover s L
  · rw [he]
    intro p hp
    exact ⟨(specPairs_bounds s L p hp).1, (specPairs_bounds s L p hp).2.1⟩
  · intro hr
    rw [he, specPairs_getLast s L (by simp only [chunk_size] at hr ⊢; omega)]
    refine congrArg some ?_
    simp only [Prod.mk.injEq, chunk_size] at hr ⊢
    exact ⟨by omega, by omega⟩
  · intro hr hpos
    rw [he, specPairs_getLast s L hpos]
    refine congrArg some ?_
    simp only [Prod.mk.injEq, chunk_size] at hr ⊢
    exact ⟨by omega, by omega⟩

/-- Claim C1, as stated, is false: for the `u8` buffer status
`start_offset = 255`, `payload_length = 33` the second read's offset
wraps to `(32 + 255) % 256 = 31` instead of `287`, so the pairs are not
`(start_offset + k*C, min(C, L - k*C))` and do not cover `[255, 288)`. -/
theorem c1_counterexample :
    drainPairs 255 33 = [(255, 32), (31, 1)]
    ∧ drainPairs 255 33 ≠ specPairs 255 33
    ∧ ¬ ((drainPairs 255 33).flatMap fun p => List.range' p.1 p.2)
        = List.range' 255 33 :=
  ⟨by decide, by decide, by decide⟩

/-- Claim C1 witness at `start_offset = 1`, `L = 40`. -/
theorem c1_drain_chunks_witness :
    (1 : ℕ) + 40 ≤ 256 ∧ drainPairs 1 40 = specPairs 1 40 :=
  ⟨by decide, (c1_drain_chunks 1 40 (by decide)).1⟩

/-- Claim C9: each drain-loop read offset is the 8-bit sum
`(i + start_offset) % 256`.  When `start_offset + payload_length ≤ 256`
the addition never leaves `u8` range — the pairs equal the intended
(unwrapped) ones and every offset lies in
`[start_offset, start_offset + payload_length)` — while for some `u8`
buffer status with `start_offset + payload_length > 256` the addition
exceeds the `u8` range and the issued offsets differ from the intended
addresses. -/
theorem c9_offset_u8 :
    (∀ s L, s + L ≤ 256 →
      drainPairs s L = specPairs s L
      ∧ ∀ p ∈ drainPairs s L, s ≤ p.1 ∧ p.1 < s + L)
    ∧ (∃ s L, s ≤ 255 ∧ L ≤ 255 ∧ s + L > 256
        ∧ drainPairs s L ≠ specPairs s L) := by
  constructor
  · intro s L h
    refine ⟨drainPairs_eq_specPairs s L h, fun p hp => ?_⟩
    rw [drainPairs_eq_specPairs s L h] at hp
    have := specPairs_bounds s L p hp
    omega
  · exact ⟨255, 33, by decide, by decide, by decide, by decide⟩

/-- Claim C9 witness at `start_offset = 2`, `L = 60`. -/
theorem c9_offset_u8_witness :
    (2 : ℕ) + 60 ≤ 256 ∧ drainPairs 2 60 = specPairs 2 60 :=
  ⟨by decide, (c9_offset_u8.1 2 60 (by decide)).1⟩

/-!
## The engine's observable behaviour

Each driver call and each semihosting print of the main loop is one
`Event`; the lower driver is an oracle (`Device`) supplying every call's
result.  A `.unwrap()` on `Err` aborts: traces stop at the first failed
call.
-/

/-- One observable step of `main`: a radio-driver call, a semihosting
print, or an LED write. -/
inductive Event
  | initDevice
  | clear_irq_status
  | get_status
  | get_rx_buffer_status
  | read_buffer (offset len : ℕ)
  | set_rx (timeout_ms : ℕ)
  | write_bytes (payload : List ℕ) (timeout_ms preamble_len : ℕ)
      (crc : LoRaCrcType) (line : NotifyLine)
  | msg_header (start_offset payload_len : ℕ)
  | msg_chunk (bytes : List ℕ)
  | msg_footer
  | report_timeout
  | report_other (st : Option CommandStatus)
  | led_high
  | led_low
deriving DecidableEq, Repr

/-- The radio-driver calls, as opposed to prints and LED writes. -/
def Event.isRadioCmd : Event → Bool
  | .initDevice | .clear_irq_status | .get_status | .get_rx_buffer_status
  | .read_buffer _ _ | .set_rx _ | .write_bytes _ _ _ _ _ => true
  | _ => false

/-- The bytes a `msg_chunk` print surfaces, if the event is one. -/
def Event.chunkBytes : Event → Option (List ℕ)
  | .msg_chunk bs => some bs
  | _ => none

/-- Oracle for one main-loop iteration: the latch value this iteration's
`swap` yields and the result of each driver call the iteration may
make. -/
structure Device where
  dio1_risen : Bool
  clear_irq_status : Except DeviceError Unit
  get_status : Except DeviceError (Option CommandStatus)
  get_rx_buffer_status : Except DeviceError RxBufferStatus
  read_buffer : ℕ → ℕ → Except DeviceError (List ℕ)
  set_rx : Except DeviceError Unit
  write_bytes : Except DeviceError Unit

/-- Effect of `read_buffer(.., &mut chunk_result[..len])`: the driver overwrites the
first `len` cells of the 32-byte buffer and leaves the rest. -/
def writeChunk (chunk bytes : List ℕ) (len : ℕ) : List ℕ :=
  (List.range chunk_size).map fun j =>
    if j < len then bytes.getD j 0 else chunk.getD j 0

/-- The drain loop's body folded over the iterator's indices, carrying the
`chunk_result` buffer.  Per index: `read_buffer` at the wrapping `u8`
offset for `min (L - i) 32` bytes, then `hprint!` of the **whole** 32-byte
buffer.  Stops at the first failed call. -/
def drainGo (d : Device) (s L : ℕ) :
    List ℕ → List ℕ → List Event × List ℕ × Option DeviceError
  | chunk, [] => ([], chunk, none)
  | chunk, i :: is =>
    let len := min (L - i) chunk_size
    let off := (i + s) % 256
    match d.read_buffer off len with
    | .error e => ([.read_buffer off len], chunk, some e)
    | .ok bytes =>
      let chunk' := writeChunk chunk bytes len
      let next := drainGo d s L chunk' is
      (.read_buffer off len :: .msg_chunk chunk' :: next.1, next.2)

/-- The whole drain loop: `chunk_result = [0u8; 32]`, indices
`(0..payload_len).step_by(32)`. -/
def drainRun (d : Device) (s L : ℕ) : List Event × List ℕ × Option DeviceError :=
  drainGo d s L (List.replicate chunk_size 0) (stepBy chunk_size L)

/-- The `Some(DataAvailable)` arm: LED on, query the buffer status, print
the header, drain, print the footer, send the fixed reply, LED off;
aborting at the first failed call. -/
def dataAvailableBranch (d : Device) : List Event × Option DeviceError :=
  match d.get_rx_buffer_status with
  | .error e => ([.led_high, .get_rx_buffer_status], some e)
  | .ok bs =>
    let L := bs.payload_length_rx
    let s := bs.rx_start_buffer_pointer
    let pre : List Event := [.led_high, .get_rx_buffer_status, .msg_header s L]
    let dr := drainRun d s L
    match dr.2.2 with
    | some e => (pre ++ dr.1, some e)
    | none =>
      match d.write_bytes with
      | .error e =>
        (pre ++ dr.1 ++ [.msg_footer,
          .write_bytes reply_message tx_timeout 8 crc_type .dio1], some e)
      | .ok _ =>
        (pre ++ dr.1 ++ [.msg_footer,
          .write_bytes reply_message tx_timeout 8 crc_type .dio1, .led_low], none)

/-- The `match status.command_status()` dispatch of the main loop. -/
def dispatch (d : Device) : Option CommandStatus → List Event × Option DeviceError
  | some .DataAvailable => dataAvailableBranch d
  | some .CommandTxDone =>
    match d.set_rx with
    | .error e => ([.set_rx rx_timeout], some e)
    | .ok _ => ([.set_rx rx_timeout], none)
  | some .CommandTimeout => ([.report_timeout], none)
  | other => ([.report_other other], none)

/-- One iteration of the infinite loop: poll the latch; when risen, clear
the device's interrupt flags, read status, dispatch.  Aborts at the first
failed call. -/
def runIter (d : Device) : List Event × Option DeviceError :=
  if d.dio1_risen then
    match d.clear_irq_status with
    | .error e => ([.clear_irq_status], some e)
    | .ok _ =>
      match d.get_status with
      | .error e => ([.clear_irq_status, .get_status], some e)
      | .ok st =>
        let r := dispatch d st
        (.clear_irq_status :: .get_status :: r.1, r.2)
  else ([], none)

/-- The loop run for `ds.length` iterations, halting at the first
iteration that aborts. -/
def runEngine : List Device → List Event × Option DeviceError
  | [] => ([], none)
  | d :: ds =>
    let r := runIter d
    match r.2 with
    | some e => (r.1, some e)
    | none =>
      let r2 := runEngine ds
      (r.1 ++ r2.1, r2.2)

/-- Model of `main` after hardware bring-up: `lora.init(..).unwrap()`, the initial
`lora.set_rx(spi1, delay, rx_timeout).unwrap()`, then the loop. -/
def runMain (init_res first_rx : Except DeviceError Unit) (ds : List Device) :
    List Event × Option DeviceError :=
  match init_res with
  | .error e => ([.initDevice], some e)
  | .ok _ =>
    match first_rx with
    | .error e => ([.initDevice, .set_rx rx_timeout], some e)
    | .ok _ =>
      let r := runEngine ds
      (.initDevice :: .set_rx rx_timeout :: r.1, r.2)

/-!
## The interrupt latch

`DIO1_RISEN: AtomicBool`, written `store(true)` by the ISR and
`swap(false)` by the main loop.
-/

/-- The ISR write `DIO1_RISEN.store(true, Ordering::Relaxed)`. -/
def latchSignal (_s : Bool) : Bool := true

/-- The main-loop poll `DIO1_RISEN.swap(false, Ordering::Relaxed)`: the
previous value, and the latch left false. -/
def latchSwap (s : Bool) : Bool × Bool := (s, false)

/-- An abstract latch operation: an ISR signal or a main-loop take. -/
inductive LatchOp
  | signal
  | take
deriving DecidableEq, Repr

/-- Run a sequence of latch operations from state `s`; returns the final
latch state and the list of values the takes observed, in order. -/
def latchRun : Bool → List LatchOp → Bool × List Bool
  | s, [] => (s, [])
  | s, .signal :: ops => latchRun (latchSignal s) ops
  | s, .take :: ops =>
    let t := latchSwap s
    let r := latchRun t.2 ops
    (r.1, t.1 :: r.2)

/-- Radio-command and transmit/read recognizers used by the claims. -/
def Event.isReadBuffer : Event → Bool
  | .read_buffer _ _ => true
  | _ => false

/-- Recognizer for the transmit (`write_bytes`) call. -/
def Event.isTransmit : Event → Bool
  | .write_bytes _ _ _ _ _ => true
  | _ => false

/-- One or more signals in a row leave the latch simply set. -/
theorem latchRun_signal_replicate (ops : List LatchOp) :
    ∀ (n : ℕ) (b : Bool),
      latchRun b (List.replicate (n + 1) .signal ++ ops) = latchRun true ops := by
  intro n
  induction n with
  | zero => intro b; simp [latchRun, latchSignal]
  | succ n ih =>
    intro b
    rw [List.replicate_succ, List.cons_append]
    show latchRun (latchSignal b) (List.replicate (n + 1) .signal ++ ops)
      = latchRun true ops
    exact ih (latchSignal b)

/-- Takes from a clear latch observe only `false` and leave it clear. -/
theorem latchRun_take_false :
    ∀ m, latchRun false (List.replicate m .take)
      = (false, List.replicate m false) := by
  intro m
  induction m with
  | zero => simp [latchRun]
  | succ m ih =>
    rw [List.replicate_succ]
    show ((latchRun false (List.replicate m .take)).1,
        false :: (latchRun false (List.replicate m .take)).2)
      = (false, List.replicate (m + 1) false)
    rw [ih, List.replicate_succ]

/-- Claim C2: after `n ≥ 1` signals with no intervening take, a run of
`m ≥ 1` takes observes `true` exactly once — on the first take — then only
`false`, and the latch ends (and stays) false; in particular two signals
before a single take yield exactly one observed `true`. -/
theorem c2_latch (b : Bool) (n m : ℕ) (hn : 1 ≤ n) (hm : 1 ≤ m) :
    latchRun b (List.replicate n .signal ++ List.replicate m .take)
      = (false, true :: List.replicate (m - 1) false)
    ∧ (latchRun b (List.replicate n .signal
        ++ List.replicate m .take)).2.count true = 1 := by
  obtain ⟨n', rfl⟩ : ∃ n', n = n' + 1 := ⟨n - 1, by omega⟩
  obtain ⟨m', rfl⟩ : ∃ m', m = m' + 1 := ⟨m - 1, by omega⟩
  rw [latchRun_signal_replicate, List.replicate_succ]
  have hrun : latchRun true (.take :: List.replicate m' .take)
      = (false, true :: List.replicate m' false) := by
    show ((latchRun false (List.replicate m' .take)).1,
        true :: (latchRun false (List.replicate m' .take)).2)
      = (false, true :: List.replicate m' false)
    rw [latchRun_take_false]
  rw [hrun]
  refine ⟨by simp, ?_⟩
  simp [List.count_cons, List.count_replicate]

/-- Claim C2 witness: two signals then three takes, from a clear latch. -/
theorem c2_latch_witness :
    latchRun false (List.replicate 2 .signal ++ List.replicate 3 .take)
      = (false, true :: List.replicate 2 false) :=
  (c2_latch false 2 3 (by decide) (by decide)).1

/-- Claim C3: in an iteration whose dispatch selects `CommandTxDone`, the
next (and only) radio call after `get_status` is `set_rx` with the static
3000 ms receive timeout, on every path through the branch — also when the
`set_rx` call itself fails. -/
theorem c3_txdone_rearm (d : Device)
    (h1 : d.dio1_risen = true)
    (h2 : d.clear_irq_status = .ok ())
    (h3 : d.get_status = .ok (some .CommandTxDone)) :
    (runIter d).1 = [.clear_irq_status, .get_status, .set_rx rx_timeout]
    ∧ rx_timeout = 3000 := by
  refine ⟨?_, rfl⟩
  rcases hrx : d.set_rx with e | u <;>
    simp [runIter, dispatch, h1, h2, h3, hrx]

/-- A device oracle whose every call succeeds and whose status is
`CommandTxDone`. -/
def devTxDone : Device :=
  ⟨true, .ok (), .ok (some .CommandTxDone), .ok ⟨0, 0⟩,
    fun _ _ => .ok [], .ok (), .ok ()⟩

/-- Claim C3 witness. -/
theorem c3_txdone_rearm_witness :
    (runIter devTxDone).1 = [.clear_irq_status, .get_status, .set_rx rx_timeout]
    ∧ rx_timeout = 3000 :=
  c3_txdone_rearm devTxDone rfl rfl rfl

/-- Claim C4: a payload-available event with reported payload length 0
issues zero `read_buffer` calls and exactly one transmit call (whether or
not the transmit itself succeeds). -/
theorem c4_empty_payload (d : Device) (s : ℕ)
    (h1 : d.dio1_risen = true)
    (h2 : d.clear_irq_status = .ok ())
    (h3 : d.get_status = .ok (some .DataAvailable))
    (h4 : d.get_rx_buffer_status = .ok ⟨0, s⟩) :
    ((runIter d).1.countP fun ev => ev.isReadBuffer) = 0
    ∧ ((runIter d).1.countP fun ev => ev.isTransmit) = 1 := by
  rcases hw : d.write_bytes with e | u <;>
    simp [runIter, dispatch, dataAvailableBranch, drainRun, stepBy, drainGo,
      h1, h2, h3, h4, hw, Event.isReadBuffer, Event.isTransmit,
      List.countP_cons]

/-- A device oracle reporting a zero-length payload. -/
def devEmptyPayload : Device :=
  ⟨true, .ok (), .ok (some .DataAvailable), .ok ⟨0, 17⟩,
    fun _ _ => .ok [], .ok (), .ok ()⟩

/-- Claim C4 witness. -/
theorem c4_empty_payload_witness :
    ((runIter devEmptyPayload).1.countP fun ev => ev.isReadBuffer) = 0
    ∧ ((runIter devEmptyPayload).1.countP fun ev => ev.isTransmit) = 1 :=
  c4_empty_payload devEmptyPayload 17 rfl rfl rfl rfl

/-- Claim C6: on `CommandTimeout`, and on any status the dispatch does not
special-case, the engine only reports to the diagnostic sink: the branch
issues no radio call and does not halt (`none` outcome). -/
theorem c6_nonfatal_statuses (d : Device) :
    dispatch d (some .CommandTimeout) = ([.report_timeout], none)
    ∧ (∀ st, st ≠ some .DataAvailable → st ≠ some .CommandTxDone →
        st ≠ some .CommandTimeout →
        dispatch d st = ([.report_other st], none))
    ∧ ((dispatch d (some .CommandTimeout)).1.countP fun ev => ev.isRadioCmd) = 0
    ∧ (∀ st, st ≠ some .DataAvailable → st ≠ some .CommandTxDone →
        st ≠ some .CommandTimeout →
        ((dispatch d st).1.countP fun ev => ev.isRadioCmd) = 0) := by
  have hcatch : ∀ st, st ≠ some CommandStatus.DataAvailable →
      st ≠ some CommandStatus.CommandTxDone →
      st ≠ some CommandStatus.CommandTimeout →
      dispatch d st = ([.report_other st], none) := by
    intro st hA hT hC
    rcases st with _ | cs
    · rfl
    · cases cs
      · exact absurd rfl hA
      · exact absurd rfl hT
      · exact absurd rfl hC
      · rfl
      · rfl
  refine ⟨rfl, hcatch, rfl, fun st hA hT hC => ?_⟩
  rw [hcatch st hA hT hC]
  simp [List.countP_cons, Event.isRadioCmd]

/-- Claim C6 witness, at `CommandTimeout` and at the unrecognized
`FailureToExecute`. -/
theorem c6_nonfatal_statuses_witness :
    dispatch devTxDone (some .CommandTimeout) = ([.report_timeout], none)
    ∧ dispatch devTxDone (some .FailureToExecute)
      = ([.report_other (some .FailureToExecute)], none) :=
  ⟨(c6_nonfatal_statuses devTxDone).1,
    (c6_nonfatal_statuses devTxDone).2.1 _ (by decide) (by decide) (by decide)⟩

/-- Claim C10: a successful `get_status` whose command-status classification
is absent (`None`) takes the same catch-all path as an unrecognized code:
one report, no radio call, no halt, and the loop continues. -/
theorem c10_none_catch_all (d : Device)
    (h1 : d.dio1_risen = true)
    (h2 : d.clear_irq_status = .ok ())
    (h3 : d.get_status = .ok none) :
    runIter d = ([.clear_irq_status, .get_status, .report_other none], none)
    ∧ ((dispatch d none).1.countP fun ev => ev.isRadioCmd) = 0 := by
  refine ⟨?_, rfl⟩
  simp [runIter, dispatch, h1, h2, h3]

/-- A device oracle whose status decodes to no known variant. -/
def devNoneStatus : Device :=
  ⟨true, .ok (), .ok none, .ok ⟨0, 0⟩, fun _ _ => .ok [], .ok (), .ok ()⟩

/-- Claim C10 witness. -/
theorem c10_none_catch_all_witness :
    runIter devNoneStatus
      = ([.clear_irq_status, .get_status, .report_other none], none)
    ∧ ((dispatch devNoneStatus none).1.countP fun ev => ev.isRadioCmd) = 0 :=
  c10_none_catch_all devNoneStatus rfl rfl rfl

/-- The drain loop never issues a transmit call. -/
theorem drainGo_no_transmit (d : Device) (s L : ℕ) :
    ∀ (is chunk p : List ℕ) (t pr : ℕ) (c : LoRaCrcType) (l : NotifyLine),
      Event.write_bytes p t pr c l ∉ (drainGo d s L chunk is).1 := by
  intro is
  induction is with
  | nil =>
    intro chunk p t pr c l h
    simp [drainGo] at h
  | cons i is ih =>
    intro chunk p t pr c l h
    rcases hrb : d.read_buffer ((i + s) % 256) (min (L - i) chunk_size)
        with e | bytes <;>
      simp [drainGo, hrb] at h
    exact ih _ p t pr c l h

/-- The drain loop never issues a transmit call (whole-run form). -/
theorem drainRun_no_transmit (d : Device) (s L : ℕ) (p : List ℕ) (t pr : ℕ)
    (c : LoRaCrcType) (l : NotifyLine) :
    Event.write_bytes p t pr c l ∉ (drainRun d s L).1 :=
  drainGo_no_transmit d s L (stepBy chunk_size L)
    (List.replicate chunk_size 0) p t pr c l

/-- Claim C7: every transmit the engine issues carries the fixed reply
payload, the disabled (0) transmit timeout, preamble length 8, CRC
enabled, and the DIO1 interrupt line also used for reception. -/
theorem c7_transmit_params (d : Device) (p : List ℕ) (t pr : ℕ)
    (c : LoRaCrcType) (l : NotifyLine)
    (h : Event.write_bytes p t pr c l ∈ (runIter d).1) :
    p = reply_message ∧ t = tx_timeout ∧ tx_timeout = 0 ∧ pr = 8
    ∧ c = crc_type ∧ crc_type = .CrcOn ∧ l = .dio1 := by
  cases h1 : d.dio1_risen
  · simp [runIter, h1] at h
  rcases hc : d.clear_irq_status with e | u
  · simp [runIter, h1, hc] at h
  rcases hs : d.get_status with e | st
  · simp [runIter, h1, hc, hs] at h
  simp [runIter, h1, hc, hs] at h
  rcases st with _ | cs
  · simp [dispatch] at h
  cases cs
  case CommandTxDone =>
    rcases hrx : d.set_rx with e | u <;> simp [dispatch, hrx] at h
  case CommandTimeout => simp [dispatch] at h
  case CommandProcessingError => simp [dispatch] at h
  case FailureToExecute => simp [dispatch] at h
  case DataAvailable =>
    simp only [dispatch] at h
    rcases hb : d.get_rx_buffer_status with e | bs
    · simp [dataAvailableBranch, hb] at h
    have hnt := drainRun_no_transmit d bs.rx_start_buffer_pointer
      bs.payload_length_rx p t pr c l
    rcases hd : (drainRun d bs.rx_start_buffer_pointer bs.payload_length_rx).2.2
        with _ | e
    · rcases hw : d.write_bytes with e | u <;>
        simp [dataAvailableBranch, hb, hd, hw, hnt] at h <;>
        exact ⟨h.1, h.2.1, rfl, h.2.2.1, h.2.2.2, rfl, by cases l; rfl⟩
    · simp [dataAvailableBranch, hb, hd, hnt] at h

/-- Claim C7 witness: the transmit in a successful empty-payload iteration. -/
theorem c7_transmit_params_witness :
    reply_message = reply_message ∧ tx_timeout = tx_timeout
    ∧ tx_timeout = 0 ∧ (8 : ℕ) = 8 ∧ crc_type = crc_type
    ∧ crc_type = .CrcOn ∧ NotifyLine.dio1 = .dio1 :=
  c7_transmit_params devEmptyPayload reply_message tx_timeout 8 crc_type
    .dio1 (by decide)

/-- The (offset, length) arguments of a `read_buffer` event, if any. -/
def Event.readArgs : Event → Option (ℕ × ℕ)
  | .read_buffer o n => some (o, n)
  | _ => none

/-- Device oracle for the C8 failing input: a one-byte payload `A` (0x41)
at start offset 0, every call succeeding. -/
def devOneByte : Device :=
  ⟨true, .ok (), .ok (some .DataAvailable), .ok ⟨1, 0⟩,
    fun _ _ => .ok [65], .ok (), .ok ()⟩

/-- Claim C8 fails on the code: the per-chunk `hprint!` passes
`&chunk_result` — the whole 32-byte array — not `&chunk_result[..end]`.
For a 1-byte payload the single `read_buffer` call reads exactly 1 byte,
yet the surfaced chunk is 32 bytes: the payload byte followed by 31 stale
zeros, so the concatenation of surfaced chunks is not the payload. -/
theorem c8_stale_bytes :
    ((runIter devOneByte).1.filterMap Event.readArgs) = [(0, 1)]
    ∧ ((runIter devOneByte).1.filterMap Event.chunkBytes)
      = [65 :: List.replicate 31 0]
    ∧ (65 :: List.replicate 31 0).length = 32
    ∧ (65 :: List.replicate 31 0) ≠ [65] :=
  ⟨by decide, by decide, by decide, by decide⟩

/-- Claim C5: every `DeviceError` is fatal — the observable trace ends at
the first failed call; no later command of the same iteration and no
later iteration contributes anything.  Covers `init`, the initial
`set_rx`, `clear_irq_status`, `get_status`, `get_rx_buffer_status`, an
aborted drain, a failing `read_buffer` step, `write_bytes`, the re-arm
`set_rx`, and the loop-level short-circuit. -/
theorem c5_error_halts :
    (∀ (e : DeviceError) (r : Except DeviceError Unit) (ds : List Device),
      runMain (.error e) r ds = ([.initDevice], some e))
    ∧ (∀ (e : DeviceError) (ds : List Device),
      runMain (.ok ()) (.error e) ds
        = ([.initDevice, .set_rx rx_timeout], some e))
    ∧ (∀ (d : Device) (ds : List Device) (e : DeviceError),
      (runIter d).2 = some e → runEngine (d :: ds) = ((runIter d).1, some e))
    ∧ (∀ (d : Device) (ds : List Device),
      (runIter d).2 = none →
        runEngine (d :: ds)
          = ((runIter d).1 ++ (runEngine ds).1, (runEngine ds).2))
    ∧ (∀ (d : Device) (e : DeviceError), d.dio1_risen = true →
        d.clear_irq_status = .error e →
        runIter d = ([.clear_irq_status], some e))
    ∧ (∀ (d : Device) (e : DeviceError), d.dio1_risen = true →
        d.clear_irq_status = .ok () → d.get_status = .error e →
        runIter d = ([.clear_irq_status, .get_status], some e))
    ∧ (∀ (d : Device) (e : DeviceError), d.dio1_risen = true →
        d.clear_irq_status = .ok () →
        d.get_status = .ok (some .DataAvailable) →
        d.get_rx_buffer_status = .error e →
        runIter d = ([.clear_irq_status, .get_status, .led_high,
          .get_rx_buffer_status], some e))
    ∧ (∀ (d : Device) (e : DeviceError), d.dio1_risen = true →
        d.clear_irq_status = .ok () →
        d.get_status = .ok (some .CommandTxDone) → d.set_rx = .error e →
        runIter d
          = ([.clear_irq_status, .get_status, .set_rx rx_timeout], some e))
    ∧ (∀ (d : Device) (bs : RxBufferStatus) (e : DeviceError),
        d.dio1_risen = true → d.clear_irq_status = .ok () →
        d.get_status = .ok (some .DataAvailable) →
        d.get_rx_buffer_status = .ok bs →
        (drainRun d bs.rx_start_buffer_pointer bs.payload_length_rx).2.2
          = some e →
        runIter d = ([.clear_irq_status, .get_status, .led_high,
            .get_rx_buffer_status,
            .msg_header bs.rx_start_buffer_pointer bs.payload_length_rx]
          ++ (drainRun d bs.rx_start_buffer_pointer bs.payload_length_rx).1,
          some e))
    ∧ (∀ (d : Device) (bs : RxBufferStatus) (e : DeviceError),
        d.dio1_risen = true → d.clear_irq_status = .ok () →
        d.get_status = .ok (some .DataAvailable) →
        d.get_rx_buffer_status = .ok bs →
        (drainRun d bs.rx_start_buffer_pointer bs.payload_length_rx).2.2
          = none →
        d.write_bytes = .error e →
        runIter d = ([.clear_irq_status, .get_status, .led_high,
            .get_rx_buffer_status,
            .msg_header bs.rx_start_buffer_pointer bs.payload_length_rx]
          ++ (drainRun d bs.rx_start_buffer_pointer bs.payload_length_rx).1
          ++ [.msg_footer,
            .write_bytes reply_message tx_timeout 8 crc_type .dio1],
          some e))
    ∧ (∀ (d : Device) (s L : ℕ) (is chunk : List ℕ) (i : ℕ)
        (e : DeviceError),
        d.read_buffer ((i + s) % 256) (min (L - i) chunk_size) = .error e →
        drainGo d s L chunk (i :: is)
          = ([.read_buffer ((i + s) % 256) (min (L - i) chunk_size)],
            chunk, some e)) := by
  refine ⟨fun e r ds => rfl, fun e ds => rfl, ?_, ?_, ?_, ?_, ?_, ?_, ?_, ?_, ?_⟩
  · intro d ds e h
    simp [runEngine, h]
  · intro d ds h
    simp [runEngine, h]
  · intro d e h1 h2
    simp [runIter, h1, h2]
  · intro d e h1 h2 h3
    simp [runIter, h1, h2, h3]
  · intro d e h1 h2 h3 h4
    simp [runIter, dispatch, dataAvailableBranch, h1, h2, h3, h4]
  · intro d e h1 h2 h3 h4
    simp [runIter, dispatch, h1, h2, h3, h4]
  · intro d bs e h1 h2 h3 h4 h5
    simp [runIter, dispatch, dataAvailableBranch, h1, h2, h3, h4, h5]
  · intro d bs e h1 h2 h3 h4 h5 h6
    simp [runIter, dispatch, dataAvailableBranch, h1, h2, h3, h4, h5, h6]
  · intro d s L is chunk i e h
    simp [drainGo, h]

/-- Device oracle whose `clear_irq_status` fails with error code 3. -/
def devClearFail : Device :=
  ⟨true, .error ⟨3⟩, .ok none, .ok ⟨0, 0⟩, fun _ _ => .ok [], .ok (), .ok ()⟩

/-- Claim C5 witness: a failing `clear_irq_status` ends the iteration, and
the following iterations contribute nothing to the engine trace. -/
theorem c5_error_halts_witness :
    runIter devClearFail = ([.clear_irq_status], some ⟨3⟩)
    ∧ runEngine [devClearFail, devNoneStatus]
      = ([.clear_irq_status], some ⟨3⟩) :=
  ⟨c5_error_halts.2.2.2.2.1 devClearFail ⟨3⟩ rfl rfl,
    c5_error_halts.2.2.1 devClearFail [devNoneStatus] ⟨3⟩ (by decide)⟩

end SX126x
